import Mathlib

/-!
# Verification of the Excel workbook inspection pipeline (`src/app/app.py`)

Shallow embedding of the data-transformation core of the dashboard:
loading (`load_excel_file`), formula extraction (`display_formulas_info`),
complexity analysis (`analyze_sheet_complexity`), full-workbook
re-serialization (`create_download_link` / the underlying save-load codec),
and the per-sheet values-only download path in `main`.

The third-party spreadsheet library (openpyxl) and the tabular library
(pandas) are not part of the repository; where their behaviour decides a
claim, the corresponding definition is modelled from the specification and
marked `Modelled from the spec:` in its doc comment.  Everything else is a
direct translation of the Python source.
-/

namespace ExcelVba

/-- A cell/tabular value as the Python code sees it: Python `None`,
a number, or a string.  (Numbers are modelled as integers; the claims under
verification never depend on fractional numeric values.) -/
inductive Value
  | null
  | int (n : Int)
  | str (s : String)
  deriving DecidableEq

/-- Modelled from the spec: an openpyxl worksheet cell as the application
accesses it — a coordinate (e.g. "B1"), the openpyxl `data_type` tag
(`'f'` for formula cells), the stored `value` (the formula source text for
formula cells, since the workbook is loaded with `data_only=False`), and
the cached displayed value stored in the workbook at load time (which may
be empty when the source file stored no cached result). -/
structure Cell where
  coordinate : String
  dataType : Char
  value : Value
  displayedValue : Value
  deriving DecidableEq

/-- A worksheet: a named grid of cells; `rows` lists the rows in order, so
iterating `rows` and then each row's cells is exactly openpyxl's
`iter_rows` row-major traversal. -/
structure Worksheet where
  name : String
  rows : List (List Cell)
  deriving DecidableEq

/-- A workbook: its sheets in order plus the opaque macro payload
(`vba_archive`), present only for macro-enabled files and never decoded. -/
structure Workbook where
  sheets : List Worksheet
  vbaArchive : Option (List Nat)
  deriving DecidableEq

/-- `workbook.sheetnames`. -/
def Workbook.sheetnames (wb : Workbook) : List String :=
  wb.sheets.map Worksheet.name

/-- All cells of a worksheet in row-major order (openpyxl `iter_rows`:
rows first, then the cells of each row). -/
def Worksheet.cells (ws : Worksheet) : List Cell :=
  ws.rows.flatten

/-- One row of the formulas table built by `display_formulas_info`:
`{'Cell': …, 'Formula': …, 'Calculated Value': …, 'Data Type': 'Formula'}`. -/
structure FormulaRecord where
  cell : String
  formula : Value
  calculatedValue : Value
  dataTypeLabel : String
  deriving DecidableEq

/-- The record appended for one formula cell in `display_formulas_info`. -/
def mkFormulaRecord (c : Cell) : FormulaRecord :=
  { cell := c.coordinate
    formula := c.value
    calculatedValue := c.displayedValue
    dataTypeLabel := "Formula" }

/-- The formula-extraction loop of `display_formulas_info`
(src/app/app.py lines 70–78): for each row, for each cell, append a record
exactly when `cell.data_type == 'f'`. -/
def display_formulas_info (ws : Worksheet) : List FormulaRecord :=
  ws.rows.flatMap fun row =>
    row.filterMap fun c =>
      if c.dataType = 'f' then some (mkFormulaRecord c) else none

/-- Python `len` applied to the text stored in a value (formula records
store the formula source text as a string; `len(f['Formula'])` in the
source is only ever applied to those strings). -/
def Value.textLength : Value → Nat
  | .str s => s.length
  | .int _ => 0
  | .null => 0

/-- The formula statistics of `display_formulas_info`
(src/app/app.py lines 86–94): total count `len(formulas)`, unique count
`len(set([f['Formula'] for f in formulas]))`, and complex count
`len([f for f in formulas if len(f['Formula']) > 50])`. -/
def formula_stats (ws : Worksheet) : Nat × Nat × Nat :=
  let formulas := display_formulas_info ws
  (formulas.length,
   ((formulas.map FormulaRecord.formula).dedup).length,
   (formulas.filter fun f => 50 < f.formula.textLength).length)

/-- `filterMap` with a guarded `some` is `map` after `filter`. -/
theorem filterMap_guard_eq_map_filter {α β : Type} (p : α → Prop) [DecidablePred p]
    (f : α → β) (l : List α) :
    (l.filterMap fun a => if p a then some (f a) else none)
      = (l.filter fun a => p a).map f := by
  induction l with
  | nil => rfl
  | cons a l ih =>
    by_cases h : p a
    · simp [List.filterMap_cons, List.filter_cons, h, ih]
    · simp [List.filterMap_cons, List.filter_cons, h, ih]

/-- **C1**: for every sheet, `display_formulas_info` emits exactly one
record per formula-tagged cell, in row-major order, and no record for any
other cell; each record carries the cell's coordinate, its formula source
text, and the cached value stored in the workbook at load time (whatever
that stored value is — possibly empty — the extraction is total and never
an error). -/
theorem display_formulas_info_records (ws : Worksheet) :
    display_formulas_info ws
      = (ws.cells.filter fun c => c.dataType = 'f').map mkFormulaRecord := by
  unfold display_formulas_info Worksheet.cells
  induction ws.rows with
  | nil => rfl
  | cons row rest ih =>
    simp only [List.flatMap_cons, List.flatten_cons, List.filter_append,
      List.map_append, ih]
    congr 1
    exact filterMap_guard_eq_map_filter (fun c => c.dataType = 'f') mkFormulaRecord row

/-- **C7**: for every sheet, the statistics shown by
`display_formulas_info` satisfy: total formula count = number of emitted
records; unique-formula count = number of distinct formula texts under
exact, case-sensitive string equality (the cardinality of the set of
formula texts); complex-formula count = number of records whose formula
text length strictly exceeds 50 characters. -/
theorem formula_stats_spec (ws : Worksheet) :
    (formula_stats ws).1 = (display_formulas_info ws).length ∧
    (formula_stats ws).2.1
      = ((display_formulas_info ws).map FormulaRecord.formula).toFinset.card ∧
    (formula_stats ws).2.2
      = ((display_formulas_info ws).filter
          fun f => 50 < f.formula.textLength).length := by
  refine ⟨rfl, ?_, rfl⟩
  rw [List.card_toFinset]
  rfl

/-!
## Sheet complexity analysis (`analyze_sheet_complexity`, lines 121–150)
-/

/-- The slice of a pandas DataFrame that `analyze_sheet_complexity` and the
per-sheet download path consume: the column labels (`df.columns`) and the
row-major value grid (`df.values`); `len(df)` is the number of rows. -/
structure DataFrame where
  columns : List String
  data : List (List Value)
  deriving DecidableEq

/-- Python `len(df)`: the number of rows. -/
def DataFrame.len (df : DataFrame) : Nat :=
  df.data.length

/-- Python `len(df.columns)`: the number of columns. -/
def DataFrame.ncols (df : DataFrame) : Nat :=
  df.columns.length

/-- pandas `df.empty`: true when any axis has length zero. -/
def DataFrame.isEmpty (df : DataFrame) : Bool :=
  df.len = 0 ∨ df.ncols = 0

/-- The four metrics displayed by `analyze_sheet_complexity`:
data cells, formulas, total cells, and the complexity score (Python float
division, modelled exactly in ℚ). -/
structure ComplexityMetrics where
  dataCells : Nat
  formulaCells : Nat
  totalCells : Nat
  complexityScore : ℚ
  deriving DecidableEq

/-- The counting loop of `analyze_sheet_complexity` (lines 131–138), as a
fold over the row-major cells: `(formula_count, value_count, empty_count)`,
with the source's branch order (`value is None` first, then
`data_type == 'f'`, else a data value). -/
def complexityCounts (ws : Worksheet) : Nat × Nat × Nat :=
  ws.cells.foldl
    (fun acc c =>
      if c.value = Value.null then (acc.1, acc.2.1, acc.2.2 + 1)
      else if c.dataType = 'f' then (acc.1 + 1, acc.2.1, acc.2.2)
      else (acc.1, acc.2.1 + 1, acc.2.2))
    (0, 0, 0)

/-- The body of `analyze_sheet_complexity` once the worksheet is in hand:
metrics including `complexity_score =
(formula_count * 2 + value_count) / max(1, len(df) * len(df.columns)) * 100`
(line 149). -/
def analyzeWorksheet (df : DataFrame) (ws : Worksheet) : ComplexityMetrics :=
  { dataCells := (complexityCounts ws).2.1
    formulaCells := (complexityCounts ws).1
    totalCells := if df.isEmpty then 0 else df.len * df.ncols
    complexityScore :=
      (((complexityCounts ws).1 * 2 + (complexityCounts ws).2.1 : Nat) : ℚ)
        / ((max 1 (df.len * df.ncols) : Nat) : ℚ) * 100 }

/-- `analyze_sheet_complexity(df, workbook, sheet_name)`: look the sheet up
by name (`workbook[sheet_name]`, an error — modelled as `none` — when
absent) and compute the metrics. -/
def analyze_sheet_complexity (df : DataFrame) (wb : Workbook)
    (sheetName : String) : Option ComplexityMetrics :=
  (wb.sheets.find? fun s => s.name = sheetName).map (analyzeWorksheet df)

/-- Cells classified as formulas by the analyzer's loop: non-`None` value
and tag `'f'`. -/
def formulaCount (ws : Worksheet) : Nat :=
  (ws.cells.filter fun c => ¬c.value = Value.null ∧ c.dataType = 'f').length

/-- Cells classified as data values by the analyzer's loop: non-`None`
value and a tag other than `'f'`. -/
def literalCount (ws : Worksheet) : Nat :=
  (ws.cells.filter fun c => ¬c.value = Value.null ∧ ¬c.dataType = 'f').length

/-- Cells classified as empty by the analyzer's loop: value `None`. -/
def emptyCellCount (ws : Worksheet) : Nat :=
  (ws.cells.filter fun c => c.value = Value.null).length

theorem complexityCounts_fold (l : List Cell) (a b c : Nat) :
    l.foldl
      (fun acc c =>
        if c.value = Value.null then (acc.1, acc.2.1, acc.2.2 + 1)
        else if c.dataType = 'f' then (acc.1 + 1, acc.2.1, acc.2.2)
        else (acc.1, acc.2.1 + 1, acc.2.2))
      (a, b, c)
    = (a + (l.filter fun x => ¬x.value = Value.null ∧ x.dataType = 'f').length,
       b + (l.filter fun x => ¬x.value = Value.null ∧ ¬x.dataType = 'f').length,
       c + (l.filter fun x => x.value = Value.null).length) := by
  induction l generalizing a b c with
  | nil => simp
  | cons x l ih =>
    by_cases h1 : x.value = Value.null
    · simp only [List.foldl_cons, h1, if_true, ih, List.filter_cons]
      simp [h1]
      omega
    · by_cases h2 : x.dataType = 'f'
      · simp only [List.foldl_cons, h1, h2, if_false, if_true, ih, List.filter_cons]
        simp [h1, h2]
        omega
      · simp only [List.foldl_cons, h1, h2, if_false, ih, List.filter_cons]
        simp [h1, h2]
        omega

theorem complexityCounts_eq (ws : Worksheet) :
    complexityCounts ws = (formulaCount ws, literalCount ws, emptyCellCount ws) := by
  unfold complexityCounts formulaCount literalCount emptyCellCount
  simpa using complexityCounts_fold ws.cells 0 0 0

/-- **C3**: for every sheet found in the workbook, the metrics computed by
`analyze_sheet_complexity` classify the worksheet's cells into formula /
literal / empty, and the complexity score equals
`(formulaCount * 2 + literalCount) / max(1, totalCellSlots) * 100` where
`totalCellSlots` is the DataFrame's row count times column count — not the
worksheet's raw cell count. -/
theorem analyze_sheet_complexity_score (df : DataFrame) (wb : Workbook)
    (sheetName : String) (ws : Worksheet)
    (hws : wb.sheets.find? (fun s => s.name = sheetName) = some ws) :
    analyze_sheet_complexity df wb sheetName = some
      { dataCells := literalCount ws
        formulaCells := formulaCount ws
        totalCells := if df.isEmpty then 0 else df.len * df.ncols
        complexityScore :=
          ((formulaCount ws * 2 + literalCount ws : Nat) : ℚ)
            / ((max 1 (df.len * df.ncols) : Nat) : ℚ) * 100 } := by
  unfold analyze_sheet_complexity
  rw [hws]
  simp only [Option.map_some']
  unfold analyzeWorksheet
  rw [complexityCounts_eq]

/-- Witness for C3 at a concrete workbook: the single-sheet workbook with
one literal and one formula cell and a 1×2 DataFrame gets score
`(1*2+1)/2*100 = 150`. -/
theorem analyze_sheet_complexity_score_witness :
    analyze_sheet_complexity
        ⟨["A", "B"], [[Value.int 5, Value.int 10]]⟩
        ⟨[⟨"Data", [[⟨"A1", 'n', Value.int 5, Value.int 5⟩,
                     ⟨"B1", 'f', Value.str "=A1*2", Value.int 10⟩]]⟩], none⟩
        "Data"
      = some { dataCells := 1, formulaCells := 1, totalCells := 2,
               complexityScore := 150 } := by
  have h := analyze_sheet_complexity_score
    ⟨["A", "B"], [[Value.int 5, Value.int 10]]⟩
    ⟨[⟨"Data", [[⟨"A1", 'n', Value.int 5, Value.int 5⟩,
                 ⟨"B1", 'f', Value.str "=A1*2", Value.int 10⟩]]⟩], none⟩
    "Data"
    ⟨"Data", [[⟨"A1", 'n', Value.int 5, Value.int 5⟩,
               ⟨"B1", 'f', Value.str "=A1*2", Value.int 10⟩]]⟩
    (by decide)
  rw [h]
  have hf : formulaCount
      ⟨"Data", [[⟨"A1", 'n', Value.int 5, Value.int 5⟩,
                 ⟨"B1", 'f', Value.str "=A1*2", Value.int 10⟩]]⟩ = 1 := by rfl
  have hl : literalCount
      ⟨"Data", [[⟨"A1", 'n', Value.int 5, Value.int 5⟩,
                 ⟨"B1", 'f', Value.str "=A1*2", Value.int 10⟩]]⟩ = 1 := by rfl
  rw [hf, hl]
  norm_num [DataFrame.isEmpty, DataFrame.len, DataFrame.ncols]

/-- **C8**: the analyzer never divides by zero — the score's denominator
`max(1, len(df) * len(df.columns))` is at least 1 — and a sheet with zero
rows and zero columns in its TabularView (and no worksheet cells) gets
complexity score 0, not a division error. -/
theorem analyze_no_division_by_zero (df : DataFrame) (ws : Worksheet) :
    (1 : ℚ) ≤ ((max 1 (df.len * df.ncols) : Nat) : ℚ) ∧
    (df.len = 0 → df.ncols = 0 → ws.rows = [] →
      (analyzeWorksheet df ws).complexityScore = 0) := by
  constructor
  · exact_mod_cast le_max_left 1 (df.len * df.ncols)
  · intro _ _ h3
    have hc : complexityCounts ws = (0, 0, 0) := by
      unfold complexityCounts Worksheet.cells
      rw [h3]
      rfl
    unfold analyzeWorksheet
    rw [hc]
    norm_num

/-- Witness for C8 at the empty DataFrame and the empty worksheet. -/
theorem analyze_no_division_by_zero_witness :
    (1 : ℚ) ≤ ((max 1 ((⟨[], []⟩ : DataFrame).len * (⟨[], []⟩ : DataFrame).ncols) : Nat) : ℚ) ∧
    (analyzeWorksheet ⟨[], []⟩ ⟨"Empty", []⟩).complexityScore = 0 :=
  ⟨(analyze_no_division_by_zero ⟨[], []⟩ ⟨"Empty", []⟩).1,
   (analyze_no_division_by_zero ⟨[], []⟩ ⟨"Empty", []⟩).2 rfl rfl rfl⟩

/-- **C10 counterexample**: a worksheet holding a single literal cell
together with a 0×0 DataFrame satisfies the claim's hypothesis
(`2 * formulaCount + literalCount = 1 > 0 = rows * cols`), yet the
complexity score is exactly 100 — not strictly greater — because the
`max(1, …)` floor replaces the zero denominator by 1. -/
theorem analyze_score_not_always_above_100 :
    (⟨[], []⟩ : DataFrame).len * (⟨[], []⟩ : DataFrame).ncols
        < 2 * formulaCount ⟨"S", [[⟨"A1", 'n', Value.int 5, Value.int 5⟩]]⟩
          + literalCount ⟨"S", [[⟨"A1", 'n', Value.int 5, Value.int 5⟩]]⟩ ∧
    ¬ 100 < (analyzeWorksheet ⟨[], []⟩
        ⟨"S", [[⟨"A1", 'n', Value.int 5, Value.int 5⟩]]⟩).complexityScore := by
  constructor
  · decide
  · have hs : (analyzeWorksheet ⟨[], []⟩
        ⟨"S", [[⟨"A1", 'n', Value.int 5, Value.int 5⟩]]⟩).complexityScore = 100 := by
      unfold analyzeWorksheet
      have hc : complexityCounts ⟨"S", [[⟨"A1", 'n', Value.int 5, Value.int 5⟩]]⟩
          = (0, 1, 0) := by rfl
      rw [hc]
      norm_num [DataFrame.len, DataFrame.ncols]
    rw [hs]
    exact lt_irrefl 100

/-- **C10 amended**: whenever `2 * formulaCount + literalCount` (counted
over the raw worksheet's cells) exceeds the TabularView's row count times
column count, the score is at least 100, and strictly greater than 100
provided the TabularView has at least one cell slot (when it has none, the
`max(1, …)` floor makes the denominator 1 and the score `100 * numerator`,
which equals exactly 100 when the numerator is 1). -/
theorem analyze_score_exceeds_100 (df : DataFrame) (ws : Worksheet)
    (h : df.len * df.ncols < 2 * formulaCount ws + literalCount ws) :
    100 ≤ (analyzeWorksheet df ws).complexityScore ∧
    (1 ≤ df.len * df.ncols →
      100 < (analyzeWorksheet df ws).complexityScore) := by
  have hscore : (analyzeWorksheet df ws).complexityScore
      = ((formulaCount ws * 2 + literalCount ws : Nat) : ℚ)
        / ((max 1 (df.len * df.ncols) : Nat) : ℚ) * 100 := by
    unfold analyzeWorksheet
    rw [complexityCounts_eq]
  have hDN : df.len * df.ncols < formulaCount ws * 2 + literalCount ws := by omega
  have hN1 : 1 ≤ formulaCount ws * 2 + literalCount ws := by omega
  have hdpos : (0 : ℚ) < ((max 1 (df.len * df.ncols) : Nat) : ℚ) := by
    exact_mod_cast lt_of_lt_of_le one_pos (le_max_left 1 (df.len * df.ncols))
  constructor
  · rw [hscore]
    have hle : ((max 1 (df.len * df.ncols) : Nat) : ℚ)
        ≤ ((formulaCount ws * 2 + literalCount ws : Nat) : ℚ) := by
      exact_mod_cast max_le hN1 (le_of_lt hDN)
    have h1 : (1 : ℚ) ≤ ((formulaCount ws * 2 + literalCount ws : Nat) : ℚ)
        / ((max 1 (df.len * df.ncols) : Nat) : ℚ) := (one_le_div hdpos).mpr hle
    calc (100 : ℚ) = 1 * 100 := by norm_num
    _ ≤ _ := mul_le_mul_of_nonneg_right h1 (by norm_num)
  · intro hD1
    rw [hscore]
    have hmax : max 1 (df.len * df.ncols) = df.len * df.ncols := max_eq_right hD1
    rw [hmax]
    have hdpos' : (0 : ℚ) < ((df.len * df.ncols : Nat) : ℚ) := by
      exact_mod_cast lt_of_lt_of_le one_pos hD1
    have hlt : (1 : ℚ) < ((formulaCount ws * 2 + literalCount ws : Nat) : ℚ)
        / ((df.len * df.ncols : Nat) : ℚ) := by
      refine (one_lt_div hdpos').mpr ?_
      exact_mod_cast hDN
    calc (100 : ℚ) = 1 * 100 := by norm_num
    _ < _ := mul_lt_mul_of_pos_right hlt (by norm_num)

/-- Witness for the amended C10: a worksheet with two literal cells and a
1×1 DataFrame (`2 > 1` slots) gets score `2/1*100 = 200 > 100`. -/
theorem analyze_score_exceeds_100_witness :
    100 < (analyzeWorksheet ⟨["A"], [[Value.int 5]]⟩
      ⟨"S", [[⟨"A1", 'n', Value.int 5, Value.int 5⟩,
              ⟨"B1", 'n', Value.int 7, Value.int 7⟩]]⟩).complexityScore :=
  (analyze_score_exceeds_100 ⟨["A"], [[Value.int 5]]⟩
    ⟨"S", [[⟨"A1", 'n', Value.int 5, Value.int 5⟩,
            ⟨"B1", 'n', Value.int 7, Value.int 7⟩]]⟩
    (by decide)).2 (by decide)

/-!
## Full-workbook re-serialization (`create_download_link`, lines 100–119)

`create_download_link` calls `workbook.save(output)` on an in-memory
buffer; openpyxl's save / `load_workbook` pair is third-party code, so the
container byte format is modelled from the spec as a token stream that the
encoder writes and the decoder parses back.  The atoms of the stream
(numbers, signed numbers, text, characters) stand for the byte-level
encodings the container format uses.
-/

/-- An atom of the modelled container byte stream. -/
inductive Tok
  | nat (n : Nat)
  | int (i : Int)
  | str (s : String)
  | chr (c : Char)
  deriving DecidableEq

/-- Encoding of one value: a tag followed by the payload. -/
def encValue : Value → List Tok
  | .null => [Tok.nat 0]
  | .int i => [Tok.nat 1, Tok.int i]
  | .str s => [Tok.nat 2, Tok.str s]

/-- Encoding of one cell: coordinate, type tag, formula/value text, cached
value. -/
def encCell (c : Cell) : List Tok :=
  Tok.str c.coordinate :: Tok.chr c.dataType
    :: (encValue c.value ++ encValue c.displayedValue)

/-- Length-prefixed encoding of a list. -/
def encListTok {α : Type} (enc : α → List Tok) (l : List α) : List Tok :=
  Tok.nat l.length :: (l.map enc).flatten

/-- Encoding of one sheet: its name then its rows of cells. -/
def encSheet (ws : Worksheet) : List Tok :=
  Tok.str ws.name :: encListTok (encListTok encCell) ws.rows

/-- Modelled from the spec: `workbook.save` — the byte buffer produced by
`create_download_link` (line 105) re-encodes the entire workbook: every
sheet with its cells (type tags, formula source text, cached values) and,
when present, the untouched macro payload byte-for-byte. -/
def serializeFull (wb : Workbook) : List Tok :=
  encListTok encSheet wb.sheets ++
    (match wb.vbaArchive with
     | none => [Tok.nat 0]
     | some bytes => Tok.nat 1 :: encListTok (fun b => [Tok.nat b]) bytes)

/-- Read one number token. -/
def decNat : List Tok → Option (Nat × List Tok)
  | Tok.nat n :: r => some (n, r)
  | _ => none

/-- Read one value (tag then payload). -/
def decValue : List Tok → Option (Value × List Tok)
  | Tok.nat 0 :: r => some (Value.null, r)
  | Tok.nat 1 :: Tok.int i :: r => some (Value.int i, r)
  | Tok.nat 2 :: Tok.str s :: r => some (Value.str s, r)
  | _ => none

/-- Read one cell. -/
def decCell : List Tok → Option (Cell × List Tok)
  | Tok.str coord :: Tok.chr tag :: ts =>
    match decValue ts with
    | none => none
    | some (v, ts1) =>
      match decValue ts1 with
      | none => none
      | some (dv, ts2) =>
        some ({ coordinate := coord, dataType := tag,
                value := v, displayedValue := dv }, ts2)
  | _ => none

/-- Read `n` consecutive items with the given item decoder. -/
def decCount {α : Type} (dec : List Tok → Option (α × List Tok)) :
    Nat → List Tok → Option (List α × List Tok)
  | 0, ts => some ([], ts)
  | n + 1, ts =>
    match dec ts with
    | none => none
    | some (a, ts1) =>
      match decCount dec n ts1 with
      | none => none
      | some (l, ts2) => some (a :: l, ts2)

/-- Read a length-prefixed list. -/
def decListTok {α : Type} (dec : List Tok → Option (α × List Tok))
    (ts : List Tok) : Option (List α × List Tok) :=
  match decNat ts with
  | none => none
  | some (n, ts1) => decCount dec n ts1

/-- Read one sheet. -/
def decSheet : List Tok → Option (Worksheet × List Tok)
  | Tok.str name :: ts =>
    match decListTok (decListTok decCell) ts with
    | none => none
    | some (rows, ts1) => some ({ name := name, rows := rows }, ts1)
  | _ => none

/-- Modelled from the spec: `openpyxl.load_workbook` with
`data_only=False, keep_vba=True` (line 19) — parses the container back
into the structural workbook, preserving formula source text, cached
values, and the opaque macro payload. -/
def load_workbook (ts : List Tok) : Option Workbook :=
  match decListTok decSheet ts with
  | none => none
  | some (sheets, ts1) =>
    match ts1 with
    | Tok.nat 0 :: _ => some { sheets := sheets, vbaArchive := none }
    | Tok.nat 1 :: ts2 =>
      match decListTok (fun u => match decNat u with
          | none => none
          | some (b, u1) => some (b, u1)) ts2 with
      | none => none
      | some (bytes, _) => some { sheets := sheets, vbaArchive := some bytes }
    | _ => none

theorem decValue_enc (v : Value) (r : List Tok) :
    decValue (encValue v ++ r) = some (v, r) := by
  cases v <;> rfl

theorem decCell_enc (c : Cell) (r : List Tok) :
    decCell (encCell c ++ r) = some (c, r) := by
  show decCell (Tok.str c.coordinate :: Tok.chr c.dataType
    :: (encValue c.value ++ encValue c.displayedValue) ++ r) = some (c, r)
  simp only [List.cons_append, List.append_assoc, decCell, decValue_enc]

theorem decCount_enc {α : Type} (dec : List Tok → Option (α × List Tok))
    (enc : α → List Tok)
    (hdec : ∀ a r, dec (enc a ++ r) = some (a, r)) :
    ∀ (l : List α) (r : List Tok),
      decCount dec l.length ((l.map enc).flatten ++ r) = some (l, r) := by
  intro l
  induction l with
  | nil => intro r; rfl
  | cons a l ih =>
    intro r
    show decCount dec (l.length + 1) ((enc a :: l.map enc).flatten ++ r) = _
    simp only [List.flatten_cons, List.append_assoc, decCount, hdec, ih]

theorem decListTok_enc {α : Type} (dec : List Tok → Option (α × List Tok))
    (enc : α → List Tok)
    (hdec : ∀ a r, dec (enc a ++ r) = some (a, r))
    (l : List α) (r : List Tok) :
    decListTok dec (encListTok enc l ++ r) = some (l, r) := by
  show decListTok dec (Tok.nat l.length :: (l.map enc).flatten ++ r) = _
  unfold decListTok decNat
  simp only [List.cons_append]
  exact decCount_enc dec enc hdec l r

theorem decSheet_enc (ws : Worksheet) (r : List Tok) :
    decSheet (encSheet ws ++ r) = some (ws, r) := by
  show decSheet (Tok.str ws.name :: (encListTok (encListTok encCell) ws.rows ++ r))
    = some (ws, r)
  simp only [decSheet,
    decListTok_enc (decListTok decCell) (encListTok encCell)
      (fun row rr => decListTok_enc decCell encCell decCell_enc row rr) ws.rows r]

/-- Re-loading the serialized buffer reproduces the workbook exactly. -/
theorem load_workbook_serializeFull (wb : Workbook) :
    load_workbook (serializeFull wb) = some wb := by
  obtain ⟨sheets, vba⟩ := wb
  cases vba with
  | none =>
    show load_workbook (encListTok encSheet sheets ++ [Tok.nat 0]) = _
    simp only [load_workbook,
      decListTok_enc decSheet encSheet decSheet_enc sheets [Tok.nat 0]]
  | some bytes =>
    show load_workbook (encListTok encSheet sheets
      ++ (Tok.nat 1 :: encListTok (fun b => [Tok.nat b]) bytes)) = _
    have hb := decListTok_enc (fun u => match decNat u with
        | none => none
        | some (b, u1) => some (b, u1)) (fun b => [Tok.nat b])
        (fun b r => rfl) bytes []
    rw [List.append_nil] at hb
    simp only [load_workbook,
      decListTok_enc decSheet encSheet decSheet_enc sheets
        (Tok.nat 1 :: encListTok (fun b => [Tok.nat b]) bytes), hb]

/-- **C2**: for every workbook obtained by `load_workbook`, serializing it
with `serializeFull` (`create_download_link`'s save buffer) and loading the
result again yields a workbook with identical sheet names, cell type tags,
formula source text, and cached values; in particular the macro payload of
the serialized output is byte-identical to the input's. -/
theorem load_serializeFull_roundtrip (bytes : List Tok) (wb : Workbook)
    (_hload : load_workbook bytes = some wb) :
    ∃ wb2, load_workbook (serializeFull wb) = some wb2 ∧
      wb2.sheetnames = wb.sheetnames ∧
      wb2.sheets.map (fun s => s.rows.map (fun row => row.map Cell.dataType))
        = wb.sheets.map (fun s => s.rows.map (fun row => row.map Cell.dataType)) ∧
      wb2.sheets.map (fun s => s.rows.map (fun row => row.map Cell.value))
        = wb.sheets.map (fun s => s.rows.map (fun row => row.map Cell.value)) ∧
      wb2.sheets.map (fun s => s.rows.map (fun row => row.map Cell.displayedValue))
        = wb.sheets.map (fun s => s.rows.map (fun row => row.map Cell.displayedValue)) ∧
      wb2.vbaArchive = wb.vbaArchive :=
  ⟨wb, load_workbook_serializeFull wb, rfl, rfl, rfl, rfl, rfl⟩

/-- Witness for C2 at a concrete macro-enabled workbook: one sheet with a
literal and a formula cell, and a three-byte macro payload. -/
theorem load_serializeFull_roundtrip_witness :
    ∃ wb2,
      load_workbook (serializeFull
        ⟨[⟨"Data", [[⟨"A1", 'n', Value.int 5, Value.int 5⟩,
                     ⟨"B1", 'f', Value.str "=A1*2", Value.int 10⟩]]⟩],
         some [80, 75, 3]⟩) = some wb2 ∧
      wb2.sheetnames
        = (⟨[⟨"Data", [[⟨"A1", 'n', Value.int 5, Value.int 5⟩,
                        ⟨"B1", 'f', Value.str "=A1*2", Value.int 10⟩]]⟩],
            some [80, 75, 3]⟩ : Workbook).sheetnames ∧
      wb2.sheets.map (fun s => s.rows.map (fun row => row.map Cell.dataType))
        = (⟨[⟨"Data", [[⟨"A1", 'n', Value.int 5, Value.int 5⟩,
                        ⟨"B1", 'f', Value.str "=A1*2", Value.int 10⟩]]⟩],
            some [80, 75, 3]⟩ : Workbook).sheets.map
            (fun s => s.rows.map (fun row => row.map Cell.dataType)) ∧
      wb2.sheets.map (fun s => s.rows.map (fun row => row.map Cell.value))
        = (⟨[⟨"Data", [[⟨"A1", 'n', Value.int 5, Value.int 5⟩,
                        ⟨"B1", 'f', Value.str "=A1*2", Value.int 10⟩]]⟩],
            some [80, 75, 3]⟩ : Workbook).sheets.map
            (fun s => s.rows.map (fun row => row.map Cell.value)) ∧
      wb2.sheets.map (fun s => s.rows.map (fun row => row.map Cell.displayedValue))
        = (⟨[⟨"Data", [[⟨"A1", 'n', Value.int 5, Value.int 5⟩,
                        ⟨"B1", 'f', Value.str "=A1*2", Value.int 10⟩]]⟩],
            some [80, 75, 3]⟩ : Workbook).sheets.map
            (fun s => s.rows.map (fun row => row.map Cell.displayedValue)) ∧
      wb2.vbaArchive
        = (⟨[⟨"Data", [[⟨"A1", 'n', Value.int 5, Value.int 5⟩,
                        ⟨"B1", 'f', Value.str "=A1*2", Value.int 10⟩]]⟩],
            some [80, 75, 3]⟩ : Workbook).vbaArchive :=
  load_serializeFull_roundtrip
    (serializeFull
      ⟨[⟨"Data", [[⟨"A1", 'n', Value.int 5, Value.int 5⟩,
                   ⟨"B1", 'f', Value.str "=A1*2", Value.int 10⟩]]⟩],
       some [80, 75, 3]⟩)
    ⟨[⟨"Data", [[⟨"A1", 'n', Value.int 5, Value.int 5⟩,
                 ⟨"B1", 'f', Value.str "=A1*2", Value.int 10⟩]]⟩],
     some [80, 75, 3]⟩
    (by rfl)

/-!
## Per-sheet values-only download (`main`, lines 227–244)

The individual-sheet download builds a brand-new `openpyxl.Workbook()`,
copies only the DataFrame's values into it
(`new_ws.cell(row=r_idx, column=c_idx, value=value)`), and saves it; the
fresh workbook has no `vba_archive`.
-/

/-- Modelled from the spec: writing a plain tabular value into a cell of a
fresh sheet produces a value cell, never a formula cell — the export is
values-only (`'n'` for numbers and empties, `'s'` for text). -/
def writtenDataType : Value → Char
  | .null => 'n'
  | .int _ => 'n'
  | .str _ => 's'

/-- The cell created by `new_ws.cell(row=r_idx, column=c_idx, value=value)`
for the 1-based position `(r, c)`: the value is stored as a literal, and
the cached display equals the stored value. -/
def writtenCell (r c : Nat) (v : Value) : Cell :=
  { coordinate := toString r ++ ":" ++ toString c
    dataType := writtenDataType v
    value := v
    displayedValue := v }

/-- The copy loop of the per-sheet download (lines 229–236): a brand-new
workbook whose single sheet carries the DataFrame's values at 1-based
row/column indices, and which has no macro payload. -/
def download_sheet_workbook (df : DataFrame) (sheetName : String) : Workbook :=
  { sheets := [{ name := sheetName
                 rows := df.data.enum.map fun p =>
                   p.2.enum.map fun q => writtenCell (p.1 + 1) (q.1 + 1) q.2 }]
    vbaArchive := none }

/-- Formula-tagged cells across a whole workbook. -/
def workbookFormulaCells (wb : Workbook) : Nat :=
  ((wb.sheets.flatMap Worksheet.cells).filter fun c => c.dataType = 'f').length

/-- **C4**: for every TabularView (whose columns hold only literal/cached
values — every DataFrame does, being a value-only projection), the
per-sheet download produces a single-sheet container with zero formula
cells and no macro payload. -/
theorem download_sheet_values_only (df : DataFrame) (sheetName : String) :
    (download_sheet_workbook df sheetName).sheetnames = [sheetName] ∧
    workbookFormulaCells (download_sheet_workbook df sheetName) = 0 ∧
    (download_sheet_workbook df sheetName).vbaArchive = none := by
  refine ⟨rfl, ?_, rfl⟩
  unfold workbookFormulaCells download_sheet_workbook
  simp only [List.flatMap_cons, List.flatMap_nil, List.append_nil, Worksheet.cells,
    List.length_eq_zero, List.filter_eq_nil_iff]
  intro c hc
  simp only [List.mem_flatten, List.mem_map] at hc
  obtain ⟨row, ⟨p, _, hrow⟩, hcrow⟩ := hc
  subst hrow
  simp only [List.mem_map] at hcrow
  obtain ⟨q, _, hcell⟩ := hcrow
  subst hcell
  cases q.2 <;> simp [writtenCell, writtenDataType]

/-!
## Loading (`load_excel_file`, lines 15–28)

`load_excel_file` wraps both library calls in a single `try`/`except`: any
exception raised while parsing makes the function return
`(None, None, None)`.  The parsers themselves are third-party and modelled
from the spec; what matters for the claims is that a malformed sheet makes
a parser raise, and that the `except` branch abandons everything.
-/

/-- A sheet-level parse failure inside the uploaded container. -/
inductive ParseFailure
  | malformedRange
  | corruptSheet
  deriving DecidableEq

/-- The uploaded file as the parsers see it: the parse outcome of each
sheet region of the container, plus the optional macro payload. -/
structure UploadedFile where
  sheetData : List (Except ParseFailure Worksheet)
  vba : Option (List Nat)

/-- Sequence the per-sheet parse outcomes; the first failure aborts. -/
def collectSheets : List (Except ParseFailure Worksheet) →
    Except ParseFailure (List Worksheet)
  | [] => .ok []
  | .error e :: _ => .error e
  | .ok ws :: rest => (collectSheets rest).map fun l => ws :: l

/-- Modelled from the spec: `openpyxl.load_workbook(file, data_only=False,
keep_vba=True)` (line 19) — raises as soon as any sheet of the container
is malformed (the parser has no per-sheet recovery); on success it yields
the structural workbook carrying the macro payload. -/
def openpyxl_load_workbook (f : UploadedFile) : Except ParseFailure Workbook :=
  (collectSheets f.sheetData).map fun sheets =>
    { sheets := sheets, vbaArchive := f.vba }

/-- The text pandas renders for a value. -/
def Value.displayText : Value → String
  | .null => ""
  | .int n => toString n
  | .str s => s

/-- Modelled from the spec: the value-only TabularView pandas builds for
one sheet — the first row supplies the column labels, the remaining rows
the cached values. -/
def sheetDataFrame (ws : Worksheet) : DataFrame :=
  { columns := (ws.rows.headD []).map fun c => c.displayedValue.displayText
    data := (ws.rows.drop 1).map fun row => row.map Cell.displayedValue }

/-- Modelled from the spec: `pd.read_excel(file, sheet_name=None)`
(line 23) — one value-only DataFrame per sheet, raising likewise if any
sheet of the container is malformed. -/
def pd_read_excel (f : UploadedFile) :
    Except ParseFailure (List (String × DataFrame)) :=
  (collectSheets f.sheetData).map fun sheets =>
    sheets.map fun ws => (ws.name, sheetDataFrame ws)

/-- `load_excel_file` (lines 15–28): run both parsers inside one
`try`; any raised error reaches the `except` branch, which returns
`(None, None, None)`. -/
def load_excel_file (f : UploadedFile) :
    Option Workbook × Option (List String) × Option (List (String × DataFrame)) :=
  match openpyxl_load_workbook f with
  | .error _ => (none, none, none)
  | .ok wb =>
    match pd_read_excel f with
    | .error _ => (none, none, none)
    | .ok data => (some wb, some wb.sheetnames, some data)

/-- **C9**: `load_excel_file` is all-or-nothing — for every input it
returns either three non-`None` results or three `None`s; never a
partially loaded triple. -/
theorem load_excel_file_all_or_nothing (f : UploadedFile) :
    (∃ wb ns d, load_excel_file f = (some wb, some ns, some d)) ∨
    load_excel_file f = (none, none, none) := by
  unfold load_excel_file
  cases openpyxl_load_workbook f with
  | error e => exact Or.inr rfl
  | ok wb =>
    cases pd_read_excel f with
    | error e => exact Or.inr rfl
    | ok data => exact Or.inl ⟨wb, wb.sheetnames, data, rfl⟩

/-- A failing sheet somewhere in the file makes `collectSheets` fail. -/
theorem collectSheets_error {l : List (Except ParseFailure Worksheet)}
    (h : ∃ e, Except.error e ∈ l) :
    ∃ e, collectSheets l = Except.error e := by
  induction l with
  | nil =>
    obtain ⟨e, he⟩ := h
    exact absurd he (List.not_mem_nil _)
  | cons x rest ih =>
    cases x with
    | error e' => exact ⟨e', rfl⟩
    | ok ws =>
      obtain ⟨e, he⟩ := h
      have hrest : Except.error e ∈ rest := by
        rcases List.mem_cons.mp he with h1 | h1
        · exact absurd h1 (by simp)
        · exact h1
      obtain ⟨e2, h2⟩ := ih ⟨e, hrest⟩
      refine ⟨e2, ?_⟩
      show (collectSheets rest).map (fun l => ws :: l) = Except.error e2
      rw [h2]
      rfl

/-- **C5 counterexample**: a file whose first sheet parses fine and whose
second sheet has a malformed range: `load_excel_file` fails as a whole,
returning `(None, None, None)` — it does not return a Workbook with the
affected sheet present-but-empty and the good sheet loaded. -/
theorem load_excel_file_no_partial_result :
    load_excel_file
      ⟨[Except.ok ⟨"Good", [[⟨"A1", 'n', Value.int 1, Value.int 1⟩]]⟩,
        Except.error ParseFailure.malformedRange], none⟩
      = (none, none, none) := by
  rfl

/-- **C5 amended**: when any individual sheet of the input cannot be
parsed, `load_excel_file` aborts the whole load: the raised parse error is
caught by the `except` branch and the function returns
`(None, None, None)`; no partial Workbook (with the affected sheet
present-but-empty and a sheet-level warning) is produced. -/
theorem load_excel_file_aborts_on_bad_sheet (f : UploadedFile)
    (h : ∃ e, Except.error e ∈ f.sheetData) :
    load_excel_file f = (none, none, none) := by
  obtain ⟨e, hc⟩ := collectSheets_error h
  unfold load_excel_file openpyxl_load_workbook
  rw [hc]
  rfl

/-- Witness for the amended C5 at a concrete two-sheet file with one
malformed sheet. -/
theorem load_excel_file_aborts_on_bad_sheet_witness :
    load_excel_file
      ⟨[Except.error ParseFailure.malformedRange,
        Except.ok ⟨"Good", [[⟨"A1", 'n', Value.int 1, Value.int 1⟩]]⟩], some [1, 2]⟩
      = (none, none, none) :=
  load_excel_file_aborts_on_bad_sheet
    ⟨[Except.error ParseFailure.malformedRange,
      Except.ok ⟨"Good", [[⟨"A1", 'n', Value.int 1, Value.int 1⟩]]⟩], some [1, 2]⟩
    ⟨ParseFailure.malformedRange, List.mem_cons_self _ _⟩

/-!
## Cell type normalization (spec §4.2)

No normalizer code ships under `src/`; the repository's other revisions
carry it, so the step is modelled from the spec: per column, a bounded
sample (first N ≈ 10 non-empty values) detects mixed numeric/textual
types; mixed columns are coerced to a uniform textual representation;
missing/empty cells become an explicit empty-string placeholder; anonymous
columns get a synthetic, position-derived name.
-/

/-- One column of a TabularView: an optional declared name (anonymous
columns have none) and the column's values. -/
structure Column where
  name : Option String
  cells : List Value
  deriving DecidableEq

/-- A TabularView: a sequence of named columns. -/
abbrev TabularView := List Column

/-- The bounded sample size N of spec §4.2. -/
def sampleSize : Nat := 10

/-- A cell counts as non-empty content when it is neither missing nor the
empty-string placeholder. -/
def Value.hasContent : Value → Bool
  | .null => false
  | .str "" => false
  | .str _ => true
  | .int _ => true

/-- A numeric underlying type. -/
def Value.isNumericType : Value → Bool
  | .int _ => true
  | _ => false

/-- A textual underlying type. -/
def Value.isTextualType : Value → Bool
  | .str _ => true
  | _ => false

/-- Modelled from the spec: the bounded sample of a column — its first N
non-empty values. -/
def columnSample (cells : List Value) : List Value :=
  (cells.filter Value.hasContent).take sampleSize

/-- Modelled from the spec: mixed underlying types — numeric and textual
values coexist in the sample. -/
def mixedTypes (cells : List Value) : Bool :=
  (columnSample cells).any Value.isNumericType
    && (columnSample cells).any Value.isTextualType

/-- The uniform textual representation a mixed column is coerced to. -/
def Value.toText : Value → Value
  | .int n => .str (toString n)
  | v => v

/-- The explicit empty-string placeholder for missing cells. -/
def fillEmpty : Value → Value
  | .null => .str ""
  | v => v

/-- Modelled from the spec: normalize one column's values — coerce the
whole column to text when the sample shows mixed types, then replace
missing cells by the empty-string placeholder. -/
def normalizeCells (cells : List Value) : List Value :=
  (if mixedTypes cells then cells.map Value.toText else cells).map fillEmpty

/-- Modelled from the spec: normalize the column at ordinal position `i` —
its values as above, and a synthetic position-derived name when the column
is anonymous. -/
def normalizeColumn (i : Nat) (c : Column) : Column :=
  { name := some (c.name.getD ("Unnamed: " ++ toString i))
    cells := normalizeCells c.cells }

/-- Normalize the columns starting at ordinal position `i`. -/
def normalizeFrom (i : Nat) : List Column → List Column
  | [] => []
  | c :: rest => normalizeColumn i c :: normalizeFrom (i + 1) rest

/-- Modelled from the spec: `normalize(tabularView)` — every column
normalized, ordinal positions counted from 0. -/
def normalize (tv : TabularView) : TabularView :=
  normalizeFrom 0 tv

theorem fillEmpty_fillEmpty (v : Value) : fillEmpty (fillEmpty v) = fillEmpty v := by
  cases v <;> rfl

theorem hasContent_fillEmpty (v : Value) :
    Value.hasContent (fillEmpty v) = Value.hasContent v := by
  cases v with
  | null => rfl
  | int n => rfl
  | str s => rfl

theorem fillEmpty_of_hasContent {v : Value} (h : Value.hasContent v = true) :
    fillEmpty v = v := by
  cases v <;> first | rfl | exact absurd h (by simp [Value.hasContent])

theorem filter_hasContent_map_fillEmpty (l : List Value) :
    (l.map fillEmpty).filter Value.hasContent = l.filter Value.hasContent := by
  rw [List.filter_map]
  have h1 : (Value.hasContent ∘ fillEmpty) = Value.hasContent := by
    funext v
    exact hasContent_fillEmpty v
  rw [h1]
  refine List.map_congr_left ?_ |>.trans (List.map_id _)
  intro v hv
  exact fillEmpty_of_hasContent (List.of_mem_filter hv)

theorem isNumericType_fillEmpty_toText (v : Value) :
    Value.isNumericType (fillEmpty (Value.toText v)) = false := by
  cases v <;> rfl

theorem mixedTypes_normalizeCells (cells : List Value) :
    mixedTypes (normalizeCells cells) = false := by
  unfold normalizeCells
  by_cases hm : mixedTypes cells
  · rw [if_pos hm]
    unfold mixedTypes
    have hnum : ((columnSample ((cells.map Value.toText).map fillEmpty)).any
        Value.isNumericType) = false := by
      rw [List.any_eq_false]
      intro v hv
      have hv1 : v ∈ (cells.map Value.toText).map fillEmpty :=
        List.filter_subset' _ (List.take_subset _ _ hv)
      rw [List.map_map] at hv1
      obtain ⟨w, _, rfl⟩ := List.mem_map.mp hv1
      simp [Function.comp, isNumericType_fillEmpty_toText]
    rw [hnum]
    rfl
  · rw [if_neg hm]
    have hsample : columnSample (cells.map fillEmpty) = columnSample cells := by
      unfold columnSample
      rw [filter_hasContent_map_fillEmpty]
    unfold mixedTypes
    rw [hsample]
    exact Bool.of_not_eq_true hm

theorem map_fillEmpty_map_fillEmpty (l : List Value) :
    (l.map fillEmpty).map fillEmpty = l.map fillEmpty := by
  rw [List.map_map]
  exact List.map_congr_left fun v _ => fillEmpty_fillEmpty v

theorem normalizeCells_idem (cells : List Value) :
    normalizeCells (normalizeCells cells) = normalizeCells cells := by
  have hmix := mixedTypes_normalizeCells cells
  unfold normalizeCells at hmix ⊢
  rw [if_neg (by rw [hmix]; exact Bool.false_ne_true)]
  by_cases hm : mixedTypes cells
  · rw [if_pos hm]
    exact map_fillEmpty_map_fillEmpty (cells.map Value.toText)
  · rw [if_neg hm]
    exact map_fillEmpty_map_fillEmpty cells

theorem normalizeColumn_idem (i : Nat) (c : Column) :
    normalizeColumn i (normalizeColumn i c) = normalizeColumn i c := by
  unfold normalizeColumn
  simp only [Option.getD_some]
  rw [normalizeCells_idem]

theorem normalizeFrom_idem (l : List Column) :
    ∀ i, normalizeFrom i (normalizeFrom i l) = normalizeFrom i l := by
  induction l with
  | nil => intro i; rfl
  | cons c rest ih =>
    intro i
    show normalizeColumn i (normalizeColumn i c) :: normalizeFrom (i + 1) (normalizeFrom (i + 1) rest)
      = normalizeColumn i c :: normalizeFrom (i + 1) rest
    rw [normalizeColumn_idem, ih]

/-- **C6**: `normalize` is idempotent — normalizing an already-normalized
TabularView is a no-op. -/
theorem normalize_idempotent (tv : TabularView) :
    normalize (normalize tv) = normalize tv :=
  normalizeFrom_idem tv 0

end ExcelVba
